import Mathlib

/-!
# Verification of the Aurora inverter protocol implementation

A shallow embedding of the repository's three source files
(`src/lib.rs`, `src/main.rs`, `src/errors.rs`) together with theorems
settling the frozen specification claims.

Bytes are modelled as `Nat` values (the code only ever produces values
`< 256`; where the Rust machine type truncates — inside the CRC — the
embedding reduces modulo 256 / 65536 explicitly).  A 32-bit float read
from the wire (`BigEndian::read_f32`) is represented by its 32-bit
big-endian bit pattern, since the program never performs arithmetic on
it — the value is carried through and printed/uploaded.
-/

set_option maxRecDepth 4000

namespace Aurora

/-- Function `lo` from lib.rs: `(val & 0xFF) as u8`. -/
def lo (val : Nat) : Nat := val % 256

/-- Function `hi` from lib.rs: `((val >> 8) & 0xFF) as u8`. -/
def hi (val : Nat) : Nat := (val / 256) % 256

/-- One shift step of the CRC-16 register: shift left, xor the
polynomial 0x1021 when the top bit was set, keep 16 bits. -/
def crcStep (crc : Nat) : Nat :=
  if crc / 32768 % 2 = 1 then ((crc * 2) ^^^ 0x1021) % 65536 else (crc * 2) % 65536

/-- Feed one byte into the CRC-16/CCITT-FALSE register (MSB first,
no reflection). -/
def crcByte (crc b : Nat) : Nat :=
  (List.range 8).foldl (fun c _ => crcStep c) ((crc ^^^ (b % 256 * 256)) % 65536)

/-- Embeds `State::<AURORA_CRC>::calculate` from lib.rs, where
`type AURORA_CRC = crc16::CCITT_FALSE` (crc16 crate): width 16,
polynomial 0x1021, initial value 0xFFFF, no input/output reflection,
xorout 0. -/
def aurora_crc (data : List Nat) : Nat := data.foldl crcByte 0xFFFF

/-- Enum `MeasurementType` from lib.rs (`#[repr(u8)]`). -/
inductive MeasurementType
  | gridVoltage
  | gridCurrent
  | gridPower
  | frequency
  | vbulk
  | ileakDc
  | iLeakInverter
  | pin1
  | pin2
  | inverterTemperature
  | boosterTemperature
  | input1Voltage
  | input1Current
  | input2Voltage
  | input2Current
  | gridVoltageDc
  | gridFrequencyDc
  | isolationResistance
  | vbulkDc
  | averageGridVoltage
  | vbulkMid
  | peakPower
  | peakPowerToday
  | gridVoltageNeutral
  | windGeneratorFrequency
  | gridVoltageNeutralPhase
  | gridCurrentPhaseR
  | gridCurrentPhaseS
  | gridCurrentPhaseT
  | frequencyPhaseR
  | frequencyPhaseS
  | frequencyPhaseT
  | vbulkPos
  | vbulkNeg
  | supervisorTemp
  | alimTemp
  | heatSinkTemp
  | temp1
  | temp2
  | temp3
  | fanSpeed1
  | fanSpeed2
  | fanSpeed3
  | fanSpeed4
  | fanSpeed5
  | powerSaturationLimit
  | referenceRingBulk
  | vpanelMicro
  | gridVoltagePhaseR
  | gridVoltagePhaseS
  | gridVoltagePhaseT
deriving DecidableEq, Repr

/-- The `u8` discriminant declared for each `MeasurementType` variant
in lib.rs (what `type_ as u8` evaluates to). -/
def MeasurementType.code : MeasurementType → Nat
  | .gridVoltage => 1
  | .gridCurrent => 2
  | .gridPower => 3
  | .frequency => 4
  | .vbulk => 5
  | .ileakDc => 6
  | .iLeakInverter => 7
  | .pin1 => 8
  | .pin2 => 9
  | .inverterTemperature => 21
  | .boosterTemperature => 22
  | .input1Voltage => 23
  | .input1Current => 25
  | .input2Voltage => 26
  | .input2Current => 27
  | .gridVoltageDc => 28
  | .gridFrequencyDc => 29
  | .isolationResistance => 30
  | .vbulkDc => 31
  | .averageGridVoltage => 32
  | .vbulkMid => 33
  | .peakPower => 34
  | .peakPowerToday => 35
  | .gridVoltageNeutral => 36
  | .windGeneratorFrequency => 37
  | .gridVoltageNeutralPhase => 38
  | .gridCurrentPhaseR => 39
  | .gridCurrentPhaseS => 40
  | .gridCurrentPhaseT => 41
  | .frequencyPhaseR => 42
  | .frequencyPhaseS => 43
  | .frequencyPhaseT => 44
  | .vbulkPos => 45
  | .vbulkNeg => 46
  | .supervisorTemp => 47
  | .alimTemp => 48
  | .heatSinkTemp => 49
  | .temp1 => 50
  | .temp2 => 51
  | .temp3 => 52
  | .fanSpeed1 => 53
  | .fanSpeed2 => 54
  | .fanSpeed3 => 55
  | .fanSpeed4 => 56
  | .fanSpeed5 => 57
  | .powerSaturationLimit => 58
  | .referenceRingBulk => 59
  | .vpanelMicro => 60
  | .gridVoltagePhaseR => 61
  | .gridVoltagePhaseS => 62
  | .gridVoltagePhaseT => 63

/-- Enum `CumulativeDuration` from lib.rs (`#[repr(u8)]`); the source spells
`Montly` and skips code 2 intentionally. -/
inductive CumulativeDuration
  | daily
  | weekly
  | montly
  | yearly
  | total
  | sinceReset
deriving DecidableEq, Repr

/-- The `u8` discriminant of each `CumulativeDuration` variant. -/
def CumulativeDuration.code : CumulativeDuration → Nat
  | .daily => 0
  | .weekly => 1
  | .montly => 3
  | .yearly => 4
  | .total => 5
  | .sinceReset => 6

/-- Enum `Request` from lib.rs.  `Measure.global` is declared `u8` in the
source (main.rs passes `true`, embedded as 1). -/
inductive Request
  | state
  | partNumber
  | version
  | measure (type_ : MeasurementType) (global : Nat)
  | serialNumber
  | manufactureDate
  | cumulativeEnergy (duration : CumulativeDuration)
deriving DecidableEq, Repr

/-- Enum `Response` from lib.rs.  Note that the source's `Response::State`
has exactly the five fields `global, inverter, dc1, dc2, alarm` — no
transmission-state field.  `measure.val` holds the big-endian 32-bit
bit pattern that `BigEndian::read_f32` reads; `cumulativeEnergy.value`
the big-endian `u32` that `BigEndian::read_u32` reads. -/
inductive Response
  | state (global inverter dc1 dc2 alarm : Nat)
  | partNumber (bytes : List Nat)
  | version (trans global par1 par2 par3 par4 : Nat)
  | measure (trans global : Nat) (val : Nat) (type_ : MeasurementType)
  | serialNumber (bytes : List Nat)
  | manufactureDate (trans global : Nat) (week year : List Nat)
  | cumulativeEnergy (trans global : Nat) (value : Nat) (duration : CumulativeDuration)
deriving DecidableEq, Repr

/-- Big-endian 32-bit word from four bytes (`BigEndian::read_u32`, and
the bit pattern consumed by `BigEndian::read_f32`). -/
def be32 (b0 b1 b2 b3 : Nat) : Nat := b0 * 16777216 + b1 * 65536 + b2 * 256 + b3

/-- The decode-side failures raised in `AuroraCodec::decode` (the
source raises them as `io::Error` values with the messages
"CRC mismatch" and "Got response without request"). -/
inductive DecodeError
  | crcMismatch
  | unexpectedResponse
deriving DecidableEq, Repr

/-- The three outcomes of `AuroraCodec::decode`:
`Ok(None)` (not enough bytes yet), `Ok(Some(r))`, `Err(e)`. -/
inductive DecodeResult
  | notYet
  | ok (r : Response)
  | err (e : DecodeError)
deriving DecidableEq, Repr

/-- The payload interpretation in `AuroraCodec::decode` once the CRC
matched: the `match last { ... }` over the pending request, field by
field as the source writes it (`data` is the 6-byte payload slice). -/
def parseResponse (last : Request) (data : List Nat) : Response :=
  match last with
  | .state =>
      .state (data.getD 0 0) (data.getD 1 0) (data.getD 2 0) (data.getD 3 0) (data.getD 4 0)
  | .partNumber =>
      .partNumber [data.getD 0 0, data.getD 1 0, data.getD 2 0,
        data.getD 3 0, data.getD 4 0, data.getD 5 0]
  | .version =>
      .version (data.getD 0 0) (data.getD 1 0) (data.getD 2 0)
        (data.getD 3 0) (data.getD 4 0) (data.getD 5 0)
  | .measure type_ _global =>
      .measure (data.getD 0 0) (data.getD 1 0)
        (be32 (data.getD 2 0) (data.getD 3 0) (data.getD 4 0) (data.getD 5 0)) type_
  | .serialNumber =>
      .serialNumber [data.getD 0 0, data.getD 1 0, data.getD 2 0,
        data.getD 3 0, data.getD 4 0, data.getD 5 0]
  | .manufactureDate =>
      .manufactureDate (data.getD 0 0) (data.getD 1 0)
        [data.getD 2 0, data.getD 3 0] [data.getD 4 0, data.getD 5 0]
  | .cumulativeEnergy duration =>
      .cumulativeEnergy (data.getD 0 0) (data.getD 1 0)
        (be32 (data.getD 2 0) (data.getD 3 0) (data.getD 4 0) (data.getD 5 0)) duration

/-- Embeds `AuroraCodec::decode`.  The codec's mutable state is
`last_request : Option Request`; the buffer is the incrementally fed
byte buffer (`EasyBuf`).  Returns the result, the new `last_request`,
and the remaining buffer.  Mirrors the source: if fewer than 8 bytes
are buffered return `Ok(None)` untouched; otherwise `drain_to(8)`,
CRC-check bytes 0..6 against bytes 6..8 (`[lo, hi]`), fail with
"CRC mismatch" on inequality, then `last_request.take()` — parsing on
`Some`, "Got response without request" on `None`. -/
def decode (st : Option Request) (buf : List Nat) :
    DecodeResult × Option Request × List Nat :=
  if 8 ≤ buf.length then
    let packet := buf.take 8
    let rest := buf.drop 8
    let data := packet.take 6
    let crc_val := packet.drop 6
    let crc_calc := aurora_crc data
    if crc_val ≠ [lo crc_calc, hi crc_calc] then
      (.err .crcMismatch, st, rest)
    else
      match st with
      | some last => (.ok (parseResponse last data), none, rest)
      | none => (.err .unexpectedResponse, none, rest)
  else
    (.notYet, st, buf)

/-- The 8 pre-CRC bytes built by `AuroraCodec::encode`: a zeroed
8-byte array with `encoded[0] = addr` and the `match msg` writes of
the source (`data[1]` = command code, `data[2]`/`data[3]` for
`Measure`, `data[2]` for `CumulativeEnergy`). -/
def encodeData (addr : Nat) (msg : Request) : List Nat :=
  match msg with
  | .state => [addr, 50, 0, 0, 0, 0, 0, 0]
  | .partNumber => [addr, 52, 0, 0, 0, 0, 0, 0]
  | .version => [addr, 58, 0, 0, 0, 0, 0, 0]
  | .measure type_ global => [addr, 59, type_.code, global, 0, 0, 0, 0]
  | .serialNumber => [addr, 63, 0, 0, 0, 0, 0, 0]
  | .manufactureDate => [addr, 65, 0, 0, 0, 0, 0, 0]
  | .cumulativeEnergy duration => [addr, 78, duration.code, 0, 0, 0, 0, 0]

/-- Embeds `AuroraCodec::encode`: computes the CRC over the 8 data bytes,
appends `lo crc` at offset 8 and `hi crc` at offset 9, records the
request in `last_request`, and extends the output buffer with the
10-byte frame. -/
def encode (_st : Option Request) (addr : Nat) (msg : Request) (buf : List Nat) :
    Option Request × List Nat :=
  let data := encodeData addr msg
  let crc := aurora_crc data
  (some msg, buf ++ (data ++ [lo crc, hi crc]))

/-!
## main.rs: the polling orchestrator

`energy_voltage_stream` unfolds a stream of response pairs — per tick
one `CumulativeEnergy(Daily)` call followed, after its response, by
one `Measure{Input1Voltage, global:true}` call to the same address —
then `filter_map`s each pair to `(value, val)` when the responses are
`CumulativeEnergy`/`Measure` variants.  The tokio `Service` is
embedded as a state-passing call function
`σ → (Nat × Request) → Option (Response × σ)` (`none` = the call's
future failed, which terminates the unfold).  A run is observed up to
a fuel bound (a finite prefix of the lazy stream). -/

/-- One step of the source's `unfold_energy_voltage_stream` closure:
`client.call((addr, CumulativeEnergy(Daily)))`, then `and_then` with
`client.call((addr, Measure{type_: Input1Voltage, global: true}))`
(the `global` field is `u8`; `true` is embedded as 1), yielding the
response pair and the threaded state. -/
def evStep {σ : Type} (call : σ → Nat × Request → Option (Response × σ))
    (addr : Nat) (s : σ) : Option ((Response × Response) × σ) :=
  match call s (addr, Request.cumulativeEnergy CumulativeDuration.daily) with
  | none => none
  | some (energy, s1) =>
    match call s1 (addr, Request.measure MeasurementType.input1Voltage 1) with
    | none => none
    | some (i, s2) => some ((energy, i), s2)

/-- The unfolded stream of response pairs (`futures::stream::unfold`),
observed for `fuel` ticks. -/
def evPairs {σ : Type} (call : σ → Nat × Request → Option (Response × σ))
    (addr : Nat) : Nat → σ → List (Response × Response)
  | 0, _ => []
  | fuel + 1, s =>
    match evStep call addr s with
    | none => []
    | some (p, s2) => p :: evPairs call addr fuel s2

/-- The `filter_map` closure of `energy_voltage_stream`: keep a pair
iff it is `(CumulativeEnergy{value,..}, Measure{val,..})`. -/
def emitFilter : Response × Response → Option (Nat × Nat)
  | (.cumulativeEnergy _ _ value _, .measure _ _ val _) => some (value, val)
  | _ => none

/-- Embeds `energy_voltage_stream` from main.rs: the unfolded pair stream
filtered through `emitFilter`, observed for `fuel` ticks. -/
def energy_voltage_stream {σ : Type}
    (call : σ → Nat × Request → Option (Response × σ)) (addr : Nat)
    (fuel : Nat) (s : σ) : List (Nat × Nat) :=
  (evPairs call addr fuel s).filterMap emitFilter

/-- The sequence of requests `energy_voltage_stream` hands to
`client.call`, in call order (instrumentation of the same unfold: a
request is logged exactly when the source would invoke `call`, so the
measure request of a tick is logged only after the energy call of
that tick returned a response). -/
def evLog {σ : Type} (call : σ → Nat × Request → Option (Response × σ))
    (addr : Nat) : Nat → σ → List (Nat × Request)
  | 0, _ => []
  | fuel + 1, s =>
    let r1 : Nat × Request := (addr, Request.cumulativeEnergy CumulativeDuration.daily)
    match call s r1 with
    | none => [r1]
    | some (_, s1) =>
      let r2 : Nat × Request := (addr, Request.measure MeasurementType.input1Voltage 1)
      match call s1 r2 with
      | none => [r1, r2]
      | some (_, s2) => r1 :: r2 :: evLog call addr fuel s2

/-- Spec-side description of one tick (from the spec's words): issue
`CumulativeEnergy(Daily)`; after its response, issue
`Measure{Input1Voltage, global=true}`; the tick's emission is the
`(cumulative_energy, voltage)` pair when both responses are of the
expected variants, and nothing otherwise; a failed call ends the
stream. -/
def specTick {σ : Type} (call : σ → Nat × Request → Option (Response × σ))
    (addr : Nat) (s : σ) : Option (Option (Nat × Nat) × σ) :=
  match call s (addr, Request.cumulativeEnergy CumulativeDuration.daily) with
  | none => none
  | some (r1, s1) =>
    match call s1 (addr, Request.measure MeasurementType.input1Voltage 1) with
    | none => none
    | some (r2, s2) =>
      some (match r1, r2 with
            | .cumulativeEnergy _ _ value _, .measure _ _ val _ => some (value, val)
            | _, _ => none, s2)

/-- Spec-side stream: the per-tick emissions concatenated in tick
order. -/
def specStream {σ : Type} (call : σ → Nat × Request → Option (Response × σ))
    (addr : Nat) : Nat → σ → List (Nat × Nat)
  | 0, _ => []
  | fuel + 1, s =>
    match specTick call addr s with
    | none => []
    | some (em, s2) => em.toList ++ specStream call addr fuel s2

/-- Spec-side request trace of length `k`: strictly alternating
`CumulativeEnergy(Daily)`, `Measure{Input1Voltage, global=true}`,
energy first, all to the same address. -/
def expectedLog (addr : Nat) : Nat → List (Nat × Request)
  | 0 => []
  | 1 => [(addr, Request.cumulativeEnergy CumulativeDuration.daily)]
  | k + 2 =>
    (addr, Request.cumulativeEnergy CumulativeDuration.daily) ::
      (addr, Request.measure MeasurementType.input1Voltage 1) :: expectedLog addr k

/-!
## main.rs: `RateLimitedStream`

Time is a discrete `Nat`.  The inner stream is modelled by a readiness
predicate `ready t i` — whether its `i`-th item is available when the
stream is polled at time `t` — and a cursor `innerIdx` counting items
already taken.  A `Sleep` is its absolute deadline; polling it at time
`t` is `Ready` iff `deadline ≤ t` (the tokio-timer wheel never fires
before the deadline). -/

/-- The mutable fields of `RateLimitedStream` (the inner stream is
represented by its item cursor). -/
structure RLState where
  innerIdx : Nat
  sleep : Option Nat
  delay_skips : Nat
deriving DecidableEq, Repr

/-- Polling a stored `Sleep` at time `t`: ready iff the deadline has
passed (`none` = no sleep stored, never ready). -/
def sleepElapsed (sleep : Option Nat) (t : Nat) : Bool :=
  match sleep with
  | some d => decide (d ≤ t)
  | none => false

/-- Embeds `RateLimitedStream::poll` at time `t`; returns the new state and
the emitted inner item index, if any.  Mirrors the source's three
steps: (1) if `delay_skips > 0` and the inner stream is ready, emit
and decrement the skip count (the sleep is left untouched); (2) else
if the stored sleep has elapsed and the inner stream is ready, emit
and restart the sleep at `t + delay`; (3) else if no sleep is stored,
store one ending at `t + delay`; otherwise `NotReady`. -/
def pollRL (ready : Nat → Nat → Bool) (delay t : Nat) (s : RLState) :
    RLState × Option Nat :=
  if 0 < s.delay_skips ∧ ready t s.innerIdx = true then
    ({ s with innerIdx := s.innerIdx + 1, delay_skips := s.delay_skips - 1 },
      some s.innerIdx)
  else if sleepElapsed s.sleep t = true ∧ ready t s.innerIdx = true then
    ({ s with innerIdx := s.innerIdx + 1, sleep := some (t + delay) },
      some s.innerIdx)
  else if s.sleep = none then
    ({ s with sleep := some (t + delay) }, none)
  else
    (s, none)

/-- Running `RateLimitedStream` under a schedule of poll times,
collecting the times at which items are emitted. -/
def runRL (ready : Nat → Nat → Bool) (delay : Nat) :
    List Nat → RLState → List Nat
  | [], _ => []
  | t :: ts, s =>
    match pollRL ready delay t s with
    | (s2, some _) => t :: runRL ready delay ts s2
    | (s2, none) => runRL ready delay ts s2

/-- Emission times each at least `d` and consecutively separated by at
least `delay`. -/
def gatedSpaced (delay : Nat) : Nat → List Nat → Prop
  | _, [] => True
  | d, t :: ts => d ≤ t ∧ gatedSpaced delay (t + delay) ts

/-!
## main.rs: timeout configuration and the timeout-stream wrapper -/

/-- From main.rs: `let timeout_duration = poll_duration*cfg.timeout_mul;`
— the window handed to `timer.timeout_stream`. -/
def timeout_duration (poll_duration timeout_mul : Nat) : Nat :=
  poll_duration * timeout_mul

/-- Outcome of polling the timeout-wrapped stream. -/
inductive TimeoutPoll
  | item (idx : Nat)
  | notReady
  | timedOut
deriving DecidableEq, Repr

/-- Modelled from the spec: the timeout-stream combinator
(`tokio_timer::Timer::timeout_stream`, external library code not in
this repository) — "a tick that produces no response within
`poll_interval × timeout_multiplier` is a fatal timeout; the stream
terminates with a timeout failure".  The wrapper keeps an absolute
deadline, armed when it starts waiting (here: when the request was
sent); polling at time `t` yields the inner item if one is ready
(re-arming the deadline), a fatal `timedOut` once the deadline has
passed, and `notReady` before it. -/
def pollTimeoutStream (ready : Nat → Bool) (window deadline t : Nat) :
    Nat × TimeoutPoll :=
  if ready t then (t + window, .item 0)
  else if deadline ≤ t then (deadline, .timedOut)
  else (deadline, .notReady)

/-!
## Spec-side definitions used by the claim statements -/

/-- An 8-byte response frame with a valid CRC: a 6-byte payload
followed by the CRC of that payload, low byte first. -/
def validFrame (d : List Nat) : List Nat :=
  d ++ [lo (aurora_crc d), hi (aurora_crc d)]

/-- The spec's command-code table: State=50, PartNumber=52,
Version=58, Measure=59, SerialNumber=63, ManufactureDate=65,
CumulativeEnergy=78. -/
def cmdCodeSpec : Request → Nat
  | .state => 50
  | .partNumber => 52
  | .version => 58
  | .measure _ _ => 59
  | .serialNumber => 63
  | .manufactureDate => 65
  | .cumulativeEnergy _ => 78

/-- The spec's payload bytes 2–7: for Measure the measurement-type
code then the global flag, for CumulativeEnergy the duration code,
zero elsewhere. -/
def payloadSpec : Request → List Nat
  | .measure type_ global => [type_.code, global, 0, 0, 0, 0]
  | .cumulativeEnergy duration => [duration.code, 0, 0, 0, 0, 0]
  | _ => [0, 0, 0, 0, 0, 0]

/-!
## Theorems settling the claims -/

/-- C1: with no request pending, decoding an 8-byte frame with a valid
CRC fails with UnexpectedResponse; `encode` records its request as
pending; with that request pending one decode of a valid frame
succeeds and empties the pending slot; a second valid frame then fails
with UnexpectedResponse again. -/
theorem C1_pending_request_invariant (st : Option Request) (addr : Nat)
    (req : Request) (buf : List Nat) (b0 b1 b2 b3 b4 b5 c0 c1 c2 c3 c4 c5 : Nat) :
    decode none (validFrame [b0, b1, b2, b3, b4, b5])
      = (.err .unexpectedResponse, none, []) ∧
    (encode st addr req buf).1 = some req ∧
    decode (some req) (validFrame [b0, b1, b2, b3, b4, b5])
      = (.ok (parseResponse req [b0, b1, b2, b3, b4, b5]), none, []) ∧
    decode (decode (some req) (validFrame [b0, b1, b2, b3, b4, b5])).2.1
        (validFrame [c0, c1, c2, c3, c4, c5])
      = (.err .unexpectedResponse, none, []) := by
  refine ⟨?_, rfl, ?_, ?_⟩ <;> simp [decode, validFrame]

/-- C2 (code evaluation at the failing input): with a pending `State`
request, decoding the valid frame whose payload is `[6,7,1,2,3,4]`
yields `Response::State{global:6, inverter:7, dc1:1, dc2:2, alarm:3}`
— byte 0 (the wire's transmission-state code) lands in the
global-state field, byte 1 (the wire's global-state code) in the
inverter-state field, bytes 2–4 in dc1/dc2/alarm, and byte 5 (the
wire's alarm byte) is dropped; the decoded `State` response has no
transmission-state field at all. -/
theorem C2_state_decode_eval :
    decode (some Request.state) (validFrame [6, 7, 1, 2, 3, 4])
      = (.ok (Response.state 6 7 1 2 3), none, []) := by
  decide

/-- C3 (counterexample to the claim as stated): 255 is outside every
enumerated device-state code set, yet with a pending `State` request a
valid frame whose six status bytes are all 255 decodes successfully —
no `UnknownStateCode` failure occurs (the decode error type has no
such case). -/
theorem C3_unknown_code_cex :
    decode (some Request.state) (validFrame [255, 255, 255, 255, 255, 255])
      = (.ok (Response.state 255 255 255 255 255), none, []) := by
  decide

/-- C3 (amended): the decoder performs no status-byte validation at
all — with any request pending, a valid-CRC frame with any six payload
byte values decodes successfully, and the bytes are carried into the
response raw and unchanged (shown explicitly for the `State` arm), so
no default is ever substituted. -/
theorem C3_no_validation_amended (req : Request) (b0 b1 b2 b3 b4 b5 : Nat) :
    decode (some req) (validFrame [b0, b1, b2, b3, b4, b5])
      = (.ok (parseResponse req [b0, b1, b2, b3, b4, b5]), none, []) ∧
    decode (some Request.state) (validFrame [b0, b1, b2, b3, b4, b5])
      = (.ok (Response.state b0 b1 b2 b3 b4), none, []) := by
  constructor <;> simp [decode, validFrame, parseResponse]

/-- C4: for every device address and request variant, `encode` appends
exactly the 10-byte frame of the spec's table — the address, the fixed
command code, the variant payload (measurement-type code and global
flag for Measure, duration code for CumulativeEnergy, zeros
elsewhere), and the CRC-16 of bytes 0–7 with the low byte at offset 8
and the high byte at offset 9. -/
theorem C4_encode_layout (st : Option Request) (addr : Nat) (msg : Request)
    (buf : List Nat) :
    (encode st addr msg buf).2
      = buf ++ ([addr, cmdCodeSpec msg] ++ payloadSpec msg
          ++ [lo (aurora_crc ([addr, cmdCodeSpec msg] ++ payloadSpec msg)),
              hi (aurora_crc ([addr, cmdCodeSpec msg] ++ payloadSpec msg))]) ∧
    ([addr, cmdCodeSpec msg] ++ payloadSpec msg
          ++ [lo (aurora_crc ([addr, cmdCodeSpec msg] ++ payloadSpec msg)),
              hi (aurora_crc ([addr, cmdCodeSpec msg] ++ payloadSpec msg))]).length
      = 10 := by
  cases msg <;> simp [encode, encodeData, cmdCodeSpec, payloadSpec]

/-- C5: whenever at least 8 bytes are buffered, decode removes exactly
8 of them in every outcome; and if bytes 6–7 differ from the CRC
computed over bytes 0–5 (low byte first, then high), decode fails with
CrcMismatch, the pending slot untouched and the 8 consumed bytes
discarded rather than restored. -/
theorem C5_crc_mismatch (st : Option Request)
    (b0 b1 b2 b3 b4 b5 b6 b7 : Nat) (rest : List Nat) :
    (decode st (b0 :: b1 :: b2 :: b3 :: b4 :: b5 :: b6 :: b7 :: rest)).2.2 = rest ∧
    ([b6, b7] ≠ [lo (aurora_crc [b0, b1, b2, b3, b4, b5]),
                 hi (aurora_crc [b0, b1, b2, b3, b4, b5])] →
      decode st (b0 :: b1 :: b2 :: b3 :: b4 :: b5 :: b6 :: b7 :: rest)
        = (.err .crcMismatch, st, rest)) := by
  constructor
  · unfold decode
    rw [if_pos (by simp)]
    simp only [List.take, List.drop]
    split
    · rfl
    · cases st <;> rfl
  · intro h
    unfold decode
    rw [if_pos (by simp)]
    simp only [List.take, List.drop]
    rw [if_pos (by simpa using h)]

/-- Witness for C5 at a concrete input: payload `[1,2,3,4,5,6]` with
received CRC bytes `[0,0]` (which do not match) fails with
CrcMismatch, discarding the 8 bytes. -/
theorem C5_crc_mismatch_witness :
    decode none [1, 2, 3, 4, 5, 6, 0, 0] = (.err .crcMismatch, none, []) :=
  (C5_crc_mismatch none 1 2 3 4 5 6 0 0 []).2 (by decide)

/-- C6: with fewer than 8 bytes buffered, decode returns the "not yet"
result and leaves both the pending slot and the buffer exactly as they
were, so a repeated call (with more bytes appended) starts from the
identical state. -/
theorem C6_short_buffer (st : Option Request) (buf : List Nat)
    (h : buf.length < 8) :
    decode st buf = (.notYet, st, buf) := by
  unfold decode
  rw [if_neg (by omega)]

/-- Witness for C6 at a concrete input. -/
theorem C6_short_buffer_witness :
    decode (some Request.state) [1, 2, 3]
      = (.notYet, some Request.state, [1, 2, 3]) :=
  C6_short_buffer (some Request.state) [1, 2, 3] (by decide)

/-- C7: for a pending Measure request the decoded response's
measurement type is the one stored in the pending request, and for a
pending CumulativeEnergy request the decoded duration is the requested
one — for every possible combination of wire bytes, so no frame
content can change them. -/
theorem C7_echoed_request_fields (t : MeasurementType) (g : Nat)
    (dur : CumulativeDuration) (b0 b1 b2 b3 b4 b5 : Nat) :
    decode (some (Request.measure t g)) (validFrame [b0, b1, b2, b3, b4, b5])
      = (.ok (.measure b0 b1 (be32 b2 b3 b4 b5) t), none, []) ∧
    decode (some (Request.cumulativeEnergy dur)) (validFrame [b0, b1, b2, b3, b4, b5])
      = (.ok (.cumulativeEnergy b0 b1 (be32 b2 b3 b4 b5) dur), none, []) := by
  constructor <;> simp [decode, validFrame, parseResponse]

/-- The unfolded-then-filtered stream of main.rs equals the spec's
per-tick description, for every service behaviour and fuel. -/
theorem evStream_eq_specStream {σ : Type}
    (call : σ → Nat × Request → Option (Response × σ)) (addr : Nat)
    (fuel : Nat) : ∀ s : σ,
    energy_voltage_stream call addr fuel s = specStream call addr fuel s := by
  induction fuel with
  | zero => intro s; rfl
  | succ n ih =>
    intro s
    have hn : ∀ s2 : σ, (evPairs call addr n s2).filterMap emitFilter
        = specStream call addr n s2 := fun s2 => ih s2
    unfold energy_voltage_stream evPairs specStream evStep specTick
    rcases h1 : call s (addr, Request.cumulativeEnergy CumulativeDuration.daily)
      with _ | ⟨r1, s1⟩
    · simp [h1]
    · rcases h2 : call s1 (addr, Request.measure MeasurementType.input1Voltage 1)
        with _ | ⟨r2, s2⟩
      · simp [h1, h2]
      · rcases r1 <;> rcases r2 <;> simp [h1, h2, emitFilter, hn s2]

/-- The request trace of main.rs's orchestrator is the spec's
alternating energy/measure sequence, energy first, all to the given
address, for every service behaviour and fuel. -/
theorem evLog_alternating {σ : Type}
    (call : σ → Nat × Request → Option (Response × σ)) (addr : Nat)
    (fuel : Nat) : ∀ s : σ,
    evLog call addr fuel s = expectedLog addr (evLog call addr fuel s).length := by
  induction fuel with
  | zero => intro s; rfl
  | succ n ih =>
    intro s
    unfold evLog
    rcases h1 : call s (addr, Request.cumulativeEnergy CumulativeDuration.daily)
      with _ | ⟨r1, s1⟩
    · simp [h1, expectedLog]
    · rcases h2 : call s1 (addr, Request.measure MeasurementType.input1Voltage 1)
        with _ | ⟨r2, s2⟩
      · simp [h1, h2, expectedLog]
      · simpa [h1, h2, expectedLog] using ih s2

/-- C8: for every service behaviour, the orchestrator's emitted stream
equals the spec's per-tick description — each tick issues
CumulativeEnergy(Daily) and only after its response the
Measure{Input1Voltage, global=true} request, both to the same address;
a pair is emitted exactly when both of the tick's responses arrived
with the expected variants, and emissions appear in tick order — and
its request trace is the strict energy/measure alternation to that
address. -/
theorem C8_orchestrator {σ : Type}
    (call : σ → Nat × Request → Option (Response × σ)) (addr : Nat)
    (fuel : Nat) (s : σ) :
    energy_voltage_stream call addr fuel s = specStream call addr fuel s ∧
    evLog call addr fuel s = expectedLog addr (evLog call addr fuel s).length :=
  ⟨evStream_eq_specStream call addr fuel s, evLog_alternating call addr fuel s⟩

/-- From a state with no skips left and a stored sleep deadline `d`,
every emission of the rate-limited stream happens at or after `d`, and
consecutive emissions are separated by at least `delay`. -/
theorem runRL_gatedSpaced (ready : Nat → Nat → Bool) (delay : Nat) :
    ∀ (ts : List Nat) (s : RLState) (d : Nat),
    s.delay_skips = 0 → s.sleep = some d →
    gatedSpaced delay d (runRL ready delay ts s) := by
  intro ts
  induction ts with
  | nil => intro s d _ _; simp [runRL, gatedSpaced]
  | cons t ts ih =>
    intro s d hskips hsleep
    simp only [runRL, pollRL]
    split_ifs with h1 h2 h3
    · exact absurd h1.1 (by omega)
    · refine ⟨?_, ih _ (t + delay) hskips rfl⟩
      have := h2.1
      rw [hsleep] at this
      simpa [sleepElapsed] using this
    · exact absurd h3 (by simp [hsleep])
    · exact ih s d hskips hsleep

/-- Every run of the rate-limited stream splits into at most
`delay_skips` initial emissions with no spacing constraint, followed
by emissions consecutively separated by at least `delay`. -/
theorem runRL_skip_decomposition (ready : Nat → Nat → Bool) (delay : Nat) :
    ∀ (ts : List Nat) (s : RLState),
    ∃ a b, runRL ready delay ts s = a ++ b ∧ a.length ≤ s.delay_skips ∧
      ∃ d, gatedSpaced delay d b := by
  intro ts
  induction ts with
  | nil => intro s; exact ⟨[], [], rfl, by simp, 0, trivial⟩
  | cons t ts ih =>
    intro s
    simp only [runRL, pollRL]
    split_ifs with h1 h2 h3
    · obtain ⟨a, b, heq, hlen, d, hg⟩ :=
        ih { s with innerIdx := s.innerIdx + 1, delay_skips := s.delay_skips - 1 }
      refine ⟨t :: a, b, by simp [heq], ?_, d, hg⟩
      have hlen2 : a.length ≤ s.delay_skips - 1 := hlen
      have hpos := h1.1
      simp only [List.length_cons]
      omega
    · have hsk : s.delay_skips = 0 := by
        rcases Nat.eq_zero_or_pos s.delay_skips with h | h
        · exact h
        · exact absurd ⟨h, h2.2⟩ h1
      refine ⟨[], _, rfl, by simp, 0, Nat.zero_le t, ?_⟩
      exact runRL_gatedSpaced ready delay ts _ (t + delay) hsk rfl
    · simpa using ih { s with sleep := some (t + delay) }
    · exact ih s

/-- C9 (counterexample to the claim as stated): with skip count 2 and
interval 10, an inner stream whose items become available from time 12
on (first polled at time 0, then at time 12) yields its first three
items all at time 12 — the 3rd item is separated from the 2nd by 0,
not by at least the interval. -/
theorem C9_rate_limit_cex :
    runRL (fun t _ => decide (12 ≤ t)) 10 [0, 12, 12, 12] ⟨0, none, 2⟩
      = [12, 12, 12] ∧
    (runRL (fun t _ => decide (12 ≤ t)) 10 [0, 12, 12, 12] ⟨0, none, 2⟩).getD 2 0
      < (runRL (fun t _ => decide (12 ≤ t)) 10 [0, 12, 12, 12] ⟨0, none, 2⟩).getD 1 0
        + 10 := by
  decide

/-- C9 (amended): while skips remain, a ready inner item is emitted
immediately at the poll time; and every run from the initial state
(skip count 2, no sleep stored) splits as at most 2 unconstrained
initial emissions followed by emissions consecutively separated by at
least the interval — so every item from the 4th onward is at least one
interval after its predecessor, while the 3rd may follow the 2nd
immediately when the warm-up sleep (started at a poll that found the
inner stream not ready) has already elapsed. -/
theorem C9_rate_limit_amended (ready : Nat → Nat → Bool) (delay : Nat)
    (ts : List Nat) (t : Nat) (s : RLState) :
    (0 < s.delay_skips → ready t s.innerIdx = true →
      (pollRL ready delay t s).2 = some s.innerIdx) ∧
    ∃ a b, runRL ready delay ts ⟨0, none, 2⟩ = a ++ b ∧ a.length ≤ 2 ∧
      ∃ d, gatedSpaced delay d b := by
  constructor
  · intro h1 h2
    unfold pollRL
    rw [if_pos ⟨h1, h2⟩]
  · simpa using runRL_skip_decomposition ready delay ts ⟨0, none, 2⟩

/-- Witness for C9 (amended) at a concrete input: an always-ready
inner stream polled at time 0 in the initial state emits item 0
immediately. -/
theorem C9_rate_limit_amended_witness :
    (pollRL (fun _ _ => true) 10 0 ⟨0, none, 2⟩).2 = some 0 ∧
    ∃ a b, runRL (fun _ _ => true) 10 [] ⟨0, none, 2⟩ = a ++ b ∧ a.length ≤ 2 ∧
      ∃ d, gatedSpaced 10 d b :=
  ⟨(C9_rate_limit_amended (fun _ _ => true) 10 [] 0 ⟨0, none, 2⟩).1
      (by decide) (by decide),
    (C9_rate_limit_amended (fun _ _ => true) 10 [] 0 ⟨0, none, 2⟩).2⟩

/-- C10: the timeout window is exactly `poll_duration * timeout_mul`;
and with a transport that never delivers a response, the
timeout-wrapped stream yields no item: polled before the deadline
(armed when the last request was sent) it is merely not ready, and
polled once the deadline is reached — the timer wakes the task exactly
then — it terminates with the fatal timeout, i.e. no later than
`poll_interval × timeout_multiplier` after the request was sent. -/
theorem C10_timeout_window (p m sendTime t : Nat) :
    timeout_duration p m = p * m ∧
    (sendTime + timeout_duration p m ≤ t →
      (pollTimeoutStream (fun _ => false) (timeout_duration p m)
          (sendTime + timeout_duration p m) t).2 = .timedOut) ∧
    (t < sendTime + timeout_duration p m →
      (pollTimeoutStream (fun _ => false) (timeout_duration p m)
          (sendTime + timeout_duration p m) t).2 = .notReady) := by
  refine ⟨rfl, ?_, ?_⟩
  · intro h
    simp [pollTimeoutStream, h]
  · intro h
    simp [pollTimeoutStream, Nat.not_le.mpr h]

/-- Witness for C10 at concrete values: interval 2, multiplier 3,
request sent at time 0 — polling at time 5 is not ready, polling at
time 6 = 2 × 3 times out. -/
theorem C10_timeout_window_witness :
    (pollTimeoutStream (fun _ => false) (timeout_duration 2 3)
        (0 + timeout_duration 2 3) 6).2 = .timedOut ∧
    (pollTimeoutStream (fun _ => false) (timeout_duration 2 3)
        (0 + timeout_duration 2 3) 5).2 = .notReady :=
  ⟨(C10_timeout_window 2 3 0 6).2.1 (by decide),
   (C10_timeout_window 2 3 0 5).2.2 (by decide)⟩

end Aurora
